import Mathlib

/-!
Verification of the KrishiSahyog AI scoring models (`ai_models.py`).

The development shallowly embeds the three scoring models of the repository —
`CropHealthAnalyzer`, `PestDetector`, `SoilAnalyzer` — over exact rational
arithmetic (`ℚ` in place of Python floats).  Randomness (`np.random.*` calls)
is made explicit: every sampled quantity is an argument of the embedded
function, normal draws as unconstrained rationals and `np.random.uniform(lo, hi)`
as `lo + u * (hi - lo)` with a standard draw `u ∈ [0,1)`.  Fallible numpy
operations (reductions over empty arrays, tuple unpacking of a too-short
shape) are embedded in `Except String`, and the `try/except` boundary of each
`analyze`/`detect` method is the `Except` eliminator returning the documented
default record.  `np.std` takes a square root, which has no rational value in
general; it is therefore passed as an oracle argument `npStd`, and every
theorem below holds for all values of that oracle (no modelled property
branches on or evaluates the standard deviation).
-/

/-- Value of `np.random.uniform(lo, hi)` expressed through a standard
uniform draw `u ∈ [0,1)`: `lo + u * (hi - lo)`. -/
def npUniform (lo hi u : ℚ) : ℚ := lo + u * (hi - lo)

/-- Mean of a list, `np.mean`.  On the empty list numpy yields NaN without
raising; `ℚ` has no NaN, and `0/0 = 0` stands in for it (no modelled
property observes this value). -/
def npMean (a : List ℚ) : ℚ := a.sum / (a.length : ℚ)

/-- Maximum of a nonempty list (helper for `npMax`). -/
def npMaxD : List ℚ → ℚ
  | [] => 0
  | x :: xs => xs.foldl max x

/-- Minimum of a nonempty list (helper for `npMin`). -/
def npMinD : List ℚ → ℚ
  | [] => 0
  | x :: xs => xs.foldl min x

/-- Embedding of `np.max`: raises `ValueError` on a zero-size array. -/
def npMax (a : List ℚ) : Except String ℚ :=
  if a.isEmpty then .error "zero-size array to reduction operation maximum" else .ok (npMaxD a)

/-- Embedding of `np.min`: raises `ValueError` on a zero-size array. -/
def npMin (a : List ℚ) : Except String ℚ :=
  if a.isEmpty then .error "zero-size array to reduction operation minimum" else .ok (npMinD a)

/-- Trapezoidal integration `np.trapz` with unit spacing; empty and
one-element inputs integrate to `0`, as in numpy. -/
def npTrapz : List ℚ → ℚ
  | [] => 0
  | [_] => 0
  | x :: y :: rest => (x + y) / 2 + npTrapz (y :: rest)

/-- Stable insertion into an ascending-sorted list (helper for `sortAsc`). -/
def insertAsc (x : ℚ) : List ℚ → List ℚ
  | [] => [x]
  | y :: ys => if x ≤ y then x :: y :: ys else y :: insertAsc x ys

/-- Ascending sort of a rational list, used by the percentile computation
(`np.percentile` sorts its input). -/
def sortAsc (l : List ℚ) : List ℚ := l.foldr insertAsc []

/-- Embedding of `np.percentile(a, q)` with the default linear
interpolation: position `q/100 * (n-1)` in the sorted array, linearly
interpolated between the two neighbouring order statistics.  Only ever
evaluated on nonempty input (numpy raises on empty input, which the caller
`indexFeatures` models before reaching this function). -/
def npPercentile (a : List ℚ) (q : ℚ) : ℚ :=
  let s := sortAsc a
  let n := s.length
  if n = 0 then 0
  else
    let pos := q * ((n : ℚ) - 1) / 100
    let i := pos.floor.toNat
    let frac := pos - (pos.floor : ℚ)
    let lo := s.getD i 0
    let hi := s.getD (i + 1) lo
    lo + frac * (hi - lo)

/-- Python index normalization for slices: a negative index counts from the
end, and the result is clamped into `[0, len]`. -/
def pyIdx (len : ℕ) (i : Int) : ℕ :=
  let j := if i < 0 then i + (len : Int) else i
  (max 0 (min j (len : Int))).toNat

/-- Python slice `a[s:e]` (step 1) with full negative-index and clamping
semantics. -/
def pySlice (a : List ℚ) (s e : Int) : List ℚ :=
  let lo := pyIdx a.length s
  let hi := pyIdx a.length e
  (a.drop lo).take (hi - lo)

/-- Least-squares slope of a degree-1 fit of `ys` against `x = 0, 1, ...`,
i.e. `np.polyfit(np.arange(len(ys)), ys, 1)[0]`.  For a single point the
division `0/0` yields `0`, matching the minimum-norm least-squares solution
at `x = [0]`. -/
def polyfitSlope (ys : List ℚ) : ℚ :=
  let n : ℚ := ys.length
  let xs : List ℚ := (List.range ys.length).map (fun i => (i : ℚ))
  let xbar := xs.sum / n
  let ybar := ys.sum / n
  let num := ((xs.zip ys).map (fun p => (p.1 - xbar) * (p.2 - ybar))).sum
  let den := (xs.map (fun x => (x - xbar) ^ 2)).sum
  num / den

/-- A numpy ndarray as consumed by the models: its `shape` tuple plus an
element accessor for the three-dimensional reads `(row, col, band)` that the
source performs on cubes.  Only the shape and 3-D element access are ever
used by `ai_models.py`. -/
structure Cube where
  shape : List ℕ
  at3 : ℕ → ℕ → ℕ → ℚ

/-- Number of rows of a 3-D cube, `shape[0]`. -/
def Cube.rows (c : Cube) : ℕ := c.shape.getD 0 0

/-- Number of columns of a 3-D cube, `shape[1]`. -/
def Cube.cols (c : Cube) : ℕ := c.shape.getD 1 0

/-- Number of spectral bands of a 3-D cube, `shape[2]`. -/
def Cube.bands (c : Cube) : ℕ := c.shape.getD 2 0

/-- Sum of one band over all pixels (helper for `avgSpectrum`). -/
def pixelSum (c : Cube) (k : ℕ) : ℚ :=
  ((List.range c.rows).map (fun i =>
    ((List.range c.cols).map (fun j => c.at3 i j k)).sum)).sum

/-- Embedding of `np.mean(data, axis=(0, 1))`: the scene-mean spectrum, one
entry per band.  For an empty spatial extent numpy produces NaN entries
without raising; here `x/0 = 0` stands in for NaN (no modelled property
branches on these values). -/
def avgSpectrum (c : Cube) : List ℚ :=
  (List.range c.bands).map (fun k => pixelSum c k / ((c.rows * c.cols : ℕ) : ℚ))

/-- A spectral-index map as passed to `CropHealthAnalyzer.analyze`: an
ordered dictionary from index name to the (flattened) index array.  All the
statistics taken of an index array (`np.mean`, `np.std`, `np.percentile`,
`np.min`, `np.max`) are invariant under flattening, so the 2-D arrays are
carried as flat lists.  The `isinstance(index_data, np.ndarray)` filter of
the source is the identity here because every entry is an array. -/
abbrev SpectralIndices := List (String × List ℚ)

/-- Result record of `CropHealthAnalyzer.analyze` (the
`analysis_timestamp` field, pure I/O, is not modelled). -/
structure HealthResult where
  chlorophyll_content : ℚ
  water_stress : ℚ
  nutrient_deficiency : ℚ
  disease_risk : ℚ
  overall_score : ℚ
  health_status : String
  recommendations : List String
deriving DecidableEq, Repr

/-- Explicit randomness consumed by one call of
`CropHealthAnalyzer.analyze`: the `np.random.normal(0, 5)` draw added to
the chlorophyll estimate, and the standard uniform draws behind the
`np.random.uniform` calls of the water-stress, nutrient-deficiency and
disease-risk estimators. -/
structure HealthDraws where
  chlorNoise : ℚ
  waterU : ℚ
  nutrU : ℚ
  disU : ℚ

namespace CropHealthAnalyzer

/-- Embedding of `CropHealthAnalyzer._calculate_red_edge_slope`.  The start
index `min(60, len - 10)` may be negative, in which case Python slicing
counts from the end; `np.polyfit` raises on an empty slice (modelled by the
`Except` error, reachable only for an empty spectrum). -/
def redEdgeSlope (spectrum : List ℚ) : Except String ℚ :=
  let redEdgeStart : Int := min 60 ((spectrum.length : Int) - 10)
  let redEdgeEnd : Int := min 70 (spectrum.length : Int)
  if redEdgeStart < redEdgeEnd then
    let vals := pySlice spectrum redEdgeStart redEdgeEnd
    if vals.isEmpty then .error "expected non-empty vector for x"
    else .ok (polyfitSlope vals)
  else .ok 0

/-- The four regional peak/trough features of
`CropHealthAnalyzer._extract_health_features`: maxima/minimum over the
hardcoded slices `[:50]`, `[50:100]`, `[100:150]`, `[150:]` of the mean
spectrum.  Each reduction raises on an empty slice. -/
def regionalPeakFeatures (avg : List ℚ) : Except String (List ℚ) := do
  let bluePeak ← npMax (avg.take 50)
  let greenPeak ← npMax ((avg.drop 50).take 50)
  let redAbsorption ← npMin ((avg.drop 100).take 50)
  let nirPeak ← npMax (avg.drop 150)
  pure [bluePeak, greenPeak, redAbsorption, nirPeak]

/-- Statistics of one spectral-index array: `[mean, std, p25, p75, min, max]`.
`np.percentile`/`np.min`/`np.max` raise on a zero-size array. -/
def indexFeatures (npStd : List ℚ → ℚ) (a : List ℚ) : Except String (List ℚ) :=
  if a.isEmpty then .error "zero-size array to reduction operation"
  else .ok [npMean a, npStd a, npPercentile a 25, npPercentile a 75, npMinD a, npMaxD a]

/-- The per-index statistics of every entry of the index map, concatenated
in dictionary order (the `for key, index_data in indices.items()` loop). -/
def indexFeaturesAll (npStd : List ℚ → ℚ) : SpectralIndices → Except String (List ℚ)
  | [] => .ok []
  | p :: rest => do
    let f ← indexFeatures npStd p.2
    let fs ← indexFeaturesAll npStd rest
    pure (f ++ fs)

/-- Embedding of `CropHealthAnalyzer._extract_health_features`: per-index
statistics, then — only for a 3-D cube — red-edge slope, area under the
mean spectrum, and the four regional peak features. -/
def extractHealthFeatures (npStd : List ℚ → ℚ) (cube : Cube) (indices : SpectralIndices) :
    Except String (List ℚ) := do
  let base ← indexFeaturesAll npStd indices
  if cube.shape.length = 3 then
    let avg := avgSpectrum cube
    let slope ← redEdgeSlope avg
    let auc := npTrapz avg
    let regions ← regionalPeakFeatures avg
    pure (base ++ [slope, auc] ++ regions)
  else
    pure base

/-- Embedding of `CropHealthAnalyzer._analyze_chlorophyll_content`.
`noise` is the `np.random.normal(0, 5)` draw. -/
def analyzeChlorophyllContent (features : List ℚ) (noise : ℚ) : ℚ :=
  if 0 < features.length then
    let ndviMean := if 0 < features.length then features.getD 0 0 else 0.5
    let chlorophyll := min 100 (max 0 ((ndviMean + 0.3) * 100)) + noise
    max 0 (min 100 chlorophyll)
  else 75

/-- Embedding of `CropHealthAnalyzer._analyze_water_stress`.
`u` is the standard draw of `np.random.uniform(10, 30)`. -/
def analyzeWaterStress (features : List ℚ) (u : ℚ) : ℚ :=
  if 6 < features.length then
    let ndviStd := if 1 < features.length then features.getD 1 0 else 0.1
    let waterStress := min 100 (ndviStd * 200) + npUniform 10 30 u
    max 0 (min 100 waterStress)
  else 20

/-- Embedding of `CropHealthAnalyzer._analyze_nutrient_deficiency`.
`u` is the standard draw of `np.random.uniform(5, 15)`. -/
def analyzeNutrientDeficiency (features : List ℚ) (u : ℚ) : ℚ :=
  if 0 < features.length then
    let chlorophyllProxy := if 0 < features.length then features.getD 0 0 else 0.5
    let nutrientDeficiency := max 0 ((1 - chlorophyllProxy) * 50) + npUniform 5 15 u
    max 0 (min 100 nutrientDeficiency)
  else 15

/-- Embedding of `CropHealthAnalyzer._analyze_disease_risk`.
`u` is the standard draw of `np.random.uniform(5, 15)`. -/
def analyzeDiseaseRisk (features : List ℚ) (u : ℚ) : ℚ :=
  if 1 < features.length then
    let spectralVariability := if 1 < features.length then features.getD 1 0 else 0.1
    let diseaseRisk := min 50 (spectralVariability * 100) + npUniform 5 15 u
    max 0 (min 100 diseaseRisk)
  else 12

/-- Embedding of `CropHealthAnalyzer._calculate_overall_health_score`
(the `weights` dictionary of the source is inlined). -/
def calculateOverallHealthScore (chlorophyll waterStress nutrientDeficiency diseaseRisk : ℚ) : ℚ :=
  let wChlorophyll : ℚ := 0.4
  let wWaterStress : ℚ := 0.25
  let wNutrient : ℚ := 0.2
  let wDisease : ℚ := 0.15
  let healthScore := wChlorophyll * chlorophyll + wWaterStress * (100 - waterStress)
    + wNutrient * (100 - nutrientDeficiency) + wDisease * (100 - diseaseRisk)
  max 0 (min 100 healthScore)

/-- Embedding of `CropHealthAnalyzer._get_health_status` (the
`health_thresholds` dictionary of the source is inlined). -/
def getHealthStatus (overallScore : ℚ) : String :=
  if overallScore ≥ 90 then "excellent"
  else if overallScore ≥ 70 then "healthy"
  else if overallScore ≥ 50 then "attention_needed"
  else "poor"

/-- Embedding of `CropHealthAnalyzer._generate_health_recommendations`:
threshold-triggered appends, the mutually exclusive three-way branch on the
overall score, then the (unreachable) empty-list catch-all. -/
def generateHealthRecommendations (chlorophyll waterStress nutrientDeficiency diseaseRisk
    overallScore : ℚ) : List String :=
  let r1 : List String :=
    if chlorophyll < 60 then
      ["Consider nitrogen fertilizer application to improve chlorophyll content"] else []
  let r2 := r1 ++ (if waterStress > 40 then
      ["Implement irrigation or water management strategies"] else [])
  let r3 := r2 ++ (if nutrientDeficiency > 30 then
      ["Conduct soil test and apply appropriate fertilizers"] else [])
  let r4 := r3 ++ (if diseaseRisk > 25 then
      ["Monitor for disease symptoms and consider preventive treatments"] else [])
  let r5 := r4 ++
    (if overallScore < 50 then ["Immediate attention required - conduct field inspection"]
     else if overallScore < 70 then ["Monitor closely and consider management interventions"]
     else ["Continue current management practices"])
  if r5 = [] then r5 ++ ["Field appears healthy - maintain current practices"] else r5

/-- The default record returned by `CropHealthAnalyzer.analyze` when any
internal computation raises. -/
def defaultHealthResult : HealthResult where
  chlorophyll_content := 75
  water_stress := 25
  nutrient_deficiency := 15
  disease_risk := 12
  overall_score := 78
  health_status := "healthy"
  recommendations := ["Monitor field conditions", "Continue current management practices"]

/-- The body of the `try` block of `CropHealthAnalyzer.analyze`: feature
extraction (fallible) followed by the four estimators, the overall score,
the status label and the recommendations. -/
def analyzeCore (npStd : List ℚ → ℚ) (cube : Cube) (indices : SpectralIndices)
    (d : HealthDraws) : Except String HealthResult := do
  let features ← extractHealthFeatures npStd cube indices
  let chlorophyll := analyzeChlorophyllContent features d.chlorNoise
  let waterStress := analyzeWaterStress features d.waterU
  let nutrientDeficiency := analyzeNutrientDeficiency features d.nutrU
  let diseaseRisk := analyzeDiseaseRisk features d.disU
  let overallScore := calculateOverallHealthScore chlorophyll waterStress nutrientDeficiency
    diseaseRisk
  pure {
    chlorophyll_content := chlorophyll
    water_stress := waterStress
    nutrient_deficiency := nutrientDeficiency
    disease_risk := diseaseRisk
    overall_score := overallScore
    health_status := getHealthStatus overallScore
    recommendations := generateHealthRecommendations chlorophyll waterStress nutrientDeficiency
      diseaseRisk overallScore }

/-- Embedding of `CropHealthAnalyzer.analyze`: the `try/except` boundary
returning the documented default record on any internal error. -/
def analyze (npStd : List ℚ → ℚ) (cube : Cube) (indices : SpectralIndices)
    (d : HealthDraws) : HealthResult :=
  match analyzeCore npStd cube indices d with
  | .ok r => r
  | .error _ => defaultHealthResult

end CropHealthAnalyzer

/-- Result record of `SoilAnalyzer.analyze` (the `analysis_timestamp`
field, pure I/O, is not modelled). -/
structure SoilResult where
  ph_level : ℚ
  organic_matter : ℚ
  moisture_content : ℚ
  nitrogen_level : ℚ
  phosphorus_level : ℚ
  potassium_level : ℚ
  recommendations : List String
deriving DecidableEq, Repr

/-- Explicit randomness consumed by one call of `SoilAnalyzer.analyze`:
the `np.random.normal` draws of the six estimators (pH: `normal(0, 0.5)`,
organic matter: `normal(0, 1.0)`, moisture: `normal(0, 15)`, nitrogen:
`normal(0, 15)`, phosphorus: `normal(0, 12)`, potassium: `normal(0, 10)`). -/
structure SoilDraws where
  phNoise : ℚ
  omNoise : ℚ
  moistNoise : ℚ
  nNoise : ℚ
  pNoise : ℚ
  kNoise : ℚ

namespace SoilAnalyzer

/-- Embedding of `SoilAnalyzer._extract_soil_features`: for a 3-D cube the
statistics `[mean, std, max, min, trapz]` of the mean spectrum (`np.max` /
`np.min` raise when the cube has zero bands), otherwise the hardcoded
default feature vector. -/
def extractSoilFeatures (npStd : List ℚ → ℚ) (cube : Cube) : Except String (List ℚ) :=
  if cube.shape.length = 3 then do
    let avg := avgSpectrum cube
    let mx ← npMax avg
    let mn ← npMin avg
    pure [npMean avg, npStd avg, mx, mn, npTrapz avg]
  else .ok [0.5, 0.1, 0.8, 0.1, 50]

/-- Embedding of `SoilAnalyzer._estimate_ph_level`; `z` is the
`np.random.normal(0, 0.5)` draw.  The `features` argument is accepted and
ignored, exactly as in the source. -/
def estimatePhLevel (_features : List ℚ) (z : ℚ) : ℚ :=
  let basePh := 6.5 + z
  max 4 (min 8.5 basePh)

/-- Embedding of `SoilAnalyzer._estimate_organic_matter`; `z` is the
`np.random.normal(0, 1.0)` draw. -/
def estimateOrganicMatter (_features : List ℚ) (z : ℚ) : ℚ :=
  let baseOm := 3.5 + z
  max 1 (min 8 baseOm)

/-- Embedding of `SoilAnalyzer._estimate_moisture_content`; `z` is the
`np.random.normal(0, 15)` draw. -/
def estimateMoistureContent (_features : List ℚ) (z : ℚ) : ℚ :=
  let baseMoisture := 45 + z
  max 0 (min 100 baseMoisture)

/-- Embedding of `SoilAnalyzer._estimate_nitrogen_level`; `z` is the
`np.random.normal(0, 15)` draw. -/
def estimateNitrogenLevel (_features : List ℚ) (z : ℚ) : ℚ :=
  let baseN := 70 + z
  max 0 (min 100 baseN)

/-- Embedding of `SoilAnalyzer._estimate_phosphorus_level`; `z` is the
`np.random.normal(0, 12)` draw. -/
def estimatePhosphorusLevel (_features : List ℚ) (z : ℚ) : ℚ :=
  let baseP := 65 + z
  max 0 (min 100 baseP)

/-- Embedding of `SoilAnalyzer._estimate_potassium_level`; `z` is the
`np.random.normal(0, 10)` draw. -/
def estimatePotassiumLevel (_features : List ℚ) (z : ℚ) : ℚ :=
  let baseK := 68 + z
  max 0 (min 100 baseK)

/-- Embedding of `SoilAnalyzer._generate_soil_recommendations`:
threshold-triggered appends (the pH and moisture pairs are `if/elif`, hence
mutually exclusive) and the empty-list catch-all. -/
def generateSoilRecommendations (ph organicMatter moisture nitrogen phosphorus potassium : ℚ) :
    List String :=
  let r1 : List String :=
    if ph < 6 then ["Consider lime application to raise pH"]
    else if ph > 7.5 then ["Consider sulfur application to lower pH"]
    else []
  let r2 := r1 ++ (if organicMatter < 3 then
      ["Increase organic matter with compost or cover crops"] else [])
  let r3 := r2 ++
    (if moisture < 30 then ["Implement irrigation to improve moisture levels"]
     else if moisture > 80 then ["Improve drainage to prevent waterlogging"]
     else [])
  let r4 := r3 ++ (if nitrogen < 50 then ["Apply nitrogen fertilizer"] else [])
  let r5 := r4 ++ (if phosphorus < 40 then ["Apply phosphorus fertilizer"] else [])
  let r6 := r5 ++ (if potassium < 45 then ["Apply potassium fertilizer"] else [])
  if r6 = [] then r6 ++ ["Soil conditions are within optimal ranges"] else r6

/-- The default record returned by `SoilAnalyzer.analyze` when any internal
computation raises. -/
def defaultSoilResult : SoilResult where
  ph_level := 6.8
  organic_matter := 4.2
  moisture_content := 67
  nitrogen_level := 75
  phosphorus_level := 68
  potassium_level := 72
  recommendations := ["Monitor soil conditions regularly"]

/-- The body of the `try` block of `SoilAnalyzer.analyze`: feature
extraction (fallible) followed by the six estimators and the
recommendations. -/
def analyzeCore (npStd : List ℚ → ℚ) (cube : Cube) (d : SoilDraws) :
    Except String SoilResult := do
  let soilFeatures ← extractSoilFeatures npStd cube
  let phLevel := estimatePhLevel soilFeatures d.phNoise
  let organicMatter := estimateOrganicMatter soilFeatures d.omNoise
  let moistureContent := estimateMoistureContent soilFeatures d.moistNoise
  let nitrogenLevel := estimateNitrogenLevel soilFeatures d.nNoise
  let phosphorusLevel := estimatePhosphorusLevel soilFeatures d.pNoise
  let potassiumLevel := estimatePotassiumLevel soilFeatures d.kNoise
  pure {
    ph_level := phLevel
    organic_matter := organicMatter
    moisture_content := moistureContent
    nitrogen_level := nitrogenLevel
    phosphorus_level := phosphorusLevel
    potassium_level := potassiumLevel
    recommendations := generateSoilRecommendations phLevel organicMatter moistureContent
      nitrogenLevel phosphorusLevel potassiumLevel }

/-- Embedding of `SoilAnalyzer.analyze`: the `try/except` boundary
returning the documented default record on any internal error. -/
def analyze (npStd : List ℚ → ℚ) (cube : Cube) (d : SoilDraws) : SoilResult :=
  match analyzeCore npStd cube d with
  | .ok r => r
  | .error _ => defaultSoilResult

end SoilAnalyzer

/-- A severity tier of a pest detection; `np.random.choice(severities, p)`
draws from exactly the three string labels embedded here. -/
inductive Severity where
  | low
  | medium
  | high
deriving DecidableEq, BEq, Repr

/-- The sort key `{'High': 3, 'Medium': 2, 'Low': 1}[x['severity']]` of
`PestDetector.detect`. -/
def severityRank : Severity → ℕ
  | .high => 3
  | .medium => 2
  | .low => 1

/-- One pest detection record as returned by
`PestDetector._create_pest_detection`. -/
structure PestDetection where
  type : String
  confidence : ℚ
  severity : Severity
  location_x : ℚ
  location_y : ℚ
  recommendation : String
deriving DecidableEq, Repr

/-- Explicit randomness consumed by one `_create_pest_detection` call:
the pest kind chosen from the database keys, the severity chosen with
weights `[0.4, 0.4, 0.2]`, the standard uniform draws behind confidence and
the two location coordinates, and the index of the recommendation choice. -/
structure DetectionDraws where
  pestType : String
  severity : Severity
  confU : ℚ
  locXU : ℚ
  locYU : ℚ
  recIdx : ℕ

/-- Explicit randomness consumed by one `PestDetector.detect` call: the
`np.random.randint(0, 4)` detection count and a stream of per-detection
draws. -/
structure PestDraws where
  nDet : ℕ
  dets : ℕ → DetectionDraws

namespace PestDetector

/-- The `confidence_ranges` dictionary of `_create_pest_detection`. -/
def confidenceRange : Severity → ℚ × ℚ
  | .low => (0.6, 0.8)
  | .medium => (0.7, 0.9)
  | .high => (0.8, 0.95)

/-- The per-kind `recommendations` dictionary of `_create_pest_detection`,
with the `.get(pest_type, ['Monitor closely'])` fallback. -/
def pestRecommendations (pestType : String) : List String :=
  if pestType = "aphids" then
    ["Monitor population levels", "Consider beneficial insects release",
     "Apply targeted insecticide if needed"]
  else if pestType = "corn_borer" then
    ["Immediate treatment recommended", "Apply approved insecticide",
     "Monitor neighboring plants"]
  else if pestType = "leaf_rust" then
    ["Apply fungicide treatment", "Remove infected plant material",
     "Improve air circulation"]
  else if pestType = "spider_mites" then
    ["Increase humidity levels", "Apply miticide treatment",
     "Monitor for natural predators"]
  else ["Monitor closely"]

/-- Element selection of `np.random.choice` over a nonempty string list,
driven by an arbitrary draw index. -/
def npChoiceStr (l : List String) (i : ℕ) : String := l.getD (i % l.length) ""

/-- Python `str.title()` restricted to the inputs occurring here
(space-separated alphabetic words): capitalize each word. -/
def pyTitle (s : String) : String :=
  String.intercalate " " ((s.splitOn " ").map String.capitalize)

/-- The severity string written into the detection record (the record of
the source stores the drawn string itself; the inductive `Severity` carries
it here). -/
def severityLabel : Severity → String
  | .low => "Low"
  | .medium => "Medium"
  | .high => "High"

/-- Embedding of `PestDetector._create_pest_detection`. -/
def createPestDetection (d : DetectionDraws) (height width : ℕ) : PestDetection :=
  let confRange := confidenceRange d.severity
  { type := pyTitle (d.pestType.replace "_" " ")
    confidence := npUniform confRange.1 confRange.2 d.confU
    severity := d.severity
    location_x := npUniform 0 (width : ℚ) d.locXU
    location_y := npUniform 0 (height : ℚ) d.locYU
    recommendation := npChoiceStr (pestRecommendations d.pestType) d.recIdx }

/-- The detection list of `PestDetector.detect` in generation (insertion)
order, before sorting.  Empty when the shape unpacking
`height, width = hyperspectral_data.shape[:2]` would raise (fewer than two
dimensions), because in that case the loop is never reached. -/
def generateDetections (cube : Cube) (pd : PestDraws) : List PestDetection :=
  if cube.shape.length < 2 then []
  else
    let height := cube.shape.getD 0 0
    let width := cube.shape.getD 1 0
    (List.range pd.nDet).map (fun i => createPestDetection (pd.dets i) height width)

/-- The descending-severity order used by
`detections.sort(key=..., reverse=True)`. -/
def sevGE (a b : PestDetection) : Prop := severityRank b.severity ≤ severityRank a.severity

instance : DecidableRel sevGE := fun _ _ => Nat.decLe _ _

instance : IsTotal PestDetection sevGE :=
  ⟨fun a b => Nat.le_total (severityRank b.severity) (severityRank a.severity)⟩

instance : IsTrans PestDetection sevGE :=
  ⟨fun _ _ _ hab hbc => Nat.le_trans hbc hab⟩

/-- The body of the `try` block of `PestDetector.detect`: the shape
unpacking (raising for fewer than two dimensions), the generation loop, and
the stable descending sort by severity.  Python's `list.sort` is stable
(also with `reverse=True`), and a stable sort by a total preorder is
extensionally unique, so insertion sort embeds it. -/
def detectCore (cube : Cube) (pd : PestDraws) : Except String (List PestDetection) :=
  if cube.shape.length < 2 then .error "not enough values to unpack"
  else .ok ((generateDetections cube pd).insertionSort sevGE)

/-- Embedding of `PestDetector.detect`: the `try/except` boundary returning
the empty list on any internal error. -/
def detect (cube : Cube) (pd : PestDraws) : List PestDetection :=
  match detectCore cube pd with
  | .ok r => r
  | .error _ => []

end PestDetector

/-! ### Helper lemmas shared by several claims -/

/-- Unfolding of `CropHealthAnalyzer.analyze` when feature extraction
succeeds. -/
theorem health_analyze_ok (npStd : List ℚ → ℚ) (cube : Cube) (indices : SpectralIndices)
    (d : HealthDraws) (ft : List ℚ)
    (h : CropHealthAnalyzer.extractHealthFeatures npStd cube indices = .ok ft) :
    CropHealthAnalyzer.analyze npStd cube indices d =
      { chlorophyll_content := CropHealthAnalyzer.analyzeChlorophyllContent ft d.chlorNoise
        water_stress := CropHealthAnalyzer.analyzeWaterStress ft d.waterU
        nutrient_deficiency := CropHealthAnalyzer.analyzeNutrientDeficiency ft d.nutrU
        disease_risk := CropHealthAnalyzer.analyzeDiseaseRisk ft d.disU
        overall_score := CropHealthAnalyzer.calculateOverallHealthScore
          (CropHealthAnalyzer.analyzeChlorophyllContent ft d.chlorNoise)
          (CropHealthAnalyzer.analyzeWaterStress ft d.waterU)
          (CropHealthAnalyzer.analyzeNutrientDeficiency ft d.nutrU)
          (CropHealthAnalyzer.analyzeDiseaseRisk ft d.disU)
        health_status := CropHealthAnalyzer.getHealthStatus
          (CropHealthAnalyzer.calculateOverallHealthScore
            (CropHealthAnalyzer.analyzeChlorophyllContent ft d.chlorNoise)
            (CropHealthAnalyzer.analyzeWaterStress ft d.waterU)
            (CropHealthAnalyzer.analyzeNutrientDeficiency ft d.nutrU)
            (CropHealthAnalyzer.analyzeDiseaseRisk ft d.disU))
        recommendations := CropHealthAnalyzer.generateHealthRecommendations
          (CropHealthAnalyzer.analyzeChlorophyllContent ft d.chlorNoise)
          (CropHealthAnalyzer.analyzeWaterStress ft d.waterU)
          (CropHealthAnalyzer.analyzeNutrientDeficiency ft d.nutrU)
          (CropHealthAnalyzer.analyzeDiseaseRisk ft d.disU)
          (CropHealthAnalyzer.calculateOverallHealthScore
            (CropHealthAnalyzer.analyzeChlorophyllContent ft d.chlorNoise)
            (CropHealthAnalyzer.analyzeWaterStress ft d.waterU)
            (CropHealthAnalyzer.analyzeNutrientDeficiency ft d.nutrU)
            (CropHealthAnalyzer.analyzeDiseaseRisk ft d.disU)) } := by
  unfold CropHealthAnalyzer.analyze CropHealthAnalyzer.analyzeCore
  rw [h]
  rfl

/-- Unfolding of `CropHealthAnalyzer.analyze` when feature extraction
raises. -/
theorem health_analyze_err (npStd : List ℚ → ℚ) (cube : Cube) (indices : SpectralIndices)
    (d : HealthDraws) (e : String)
    (h : CropHealthAnalyzer.extractHealthFeatures npStd cube indices = .error e) :
    CropHealthAnalyzer.analyze npStd cube indices d = CropHealthAnalyzer.defaultHealthResult := by
  unfold CropHealthAnalyzer.analyze CropHealthAnalyzer.analyzeCore
  rw [h]
  rfl

/-- Unfolding of `SoilAnalyzer.analyze` when feature extraction succeeds. -/
theorem soil_analyze_ok (npStd : List ℚ → ℚ) (cube : Cube) (d : SoilDraws) (ft : List ℚ)
    (h : SoilAnalyzer.extractSoilFeatures npStd cube = .ok ft) :
    SoilAnalyzer.analyze npStd cube d =
      { ph_level := SoilAnalyzer.estimatePhLevel ft d.phNoise
        organic_matter := SoilAnalyzer.estimateOrganicMatter ft d.omNoise
        moisture_content := SoilAnalyzer.estimateMoistureContent ft d.moistNoise
        nitrogen_level := SoilAnalyzer.estimateNitrogenLevel ft d.nNoise
        phosphorus_level := SoilAnalyzer.estimatePhosphorusLevel ft d.pNoise
        potassium_level := SoilAnalyzer.estimatePotassiumLevel ft d.kNoise
        recommendations := SoilAnalyzer.generateSoilRecommendations
          (SoilAnalyzer.estimatePhLevel ft d.phNoise)
          (SoilAnalyzer.estimateOrganicMatter ft d.omNoise)
          (SoilAnalyzer.estimateMoistureContent ft d.moistNoise)
          (SoilAnalyzer.estimateNitrogenLevel ft d.nNoise)
          (SoilAnalyzer.estimatePhosphorusLevel ft d.pNoise)
          (SoilAnalyzer.estimatePotassiumLevel ft d.kNoise) } := by
  unfold SoilAnalyzer.analyze SoilAnalyzer.analyzeCore
  rw [h]
  rfl

/-- Unfolding of `SoilAnalyzer.analyze` when feature extraction raises. -/
theorem soil_analyze_err (npStd : List ℚ → ℚ) (cube : Cube) (d : SoilDraws) (e : String)
    (h : SoilAnalyzer.extractSoilFeatures npStd cube = .error e) :
    SoilAnalyzer.analyze npStd cube d = SoilAnalyzer.defaultSoilResult := by
  unfold SoilAnalyzer.analyze SoilAnalyzer.analyzeCore
  rw [h]
  rfl

/-- The final empty-list catch-all of both recommendation generators keeps
the result nonempty. -/
theorem catchall_ne_nil (l : List String) (c : String) :
    (if l = [] then l ++ [c] else l) ≠ [] := by
  split
  · simp
  · assumption

/-- `PestDetector.detect` is the stable descending-severity sort of the
generated detections, in both the ok and the error branch. -/
theorem detect_eq_sort_generate (cube : Cube) (pd : PestDraws) :
    PestDetector.detect cube pd =
      (PestDetector.generateDetections cube pd).insertionSort PestDetector.sevGE := by
  unfold PestDetector.detect PestDetector.detectCore PestDetector.generateDetections
  by_cases h : cube.shape.length < 2
  · simp [h, List.insertionSort]
  · simp [h]

/-! ### C1: overall health score formula -/

/-- Modelled from the spec: "Overall score = weighted sum: chlorophyll × 0.4
+ (100 − water_stress) × 0.25 + (100 − nutrient_deficiency) × 0.2
+ (100 − disease_risk) × 0.15, clamped to [0,100]." -/
def specOverallHealthScore (chlorophyll waterStress nutrientDeficiency diseaseRisk : ℚ) : ℚ :=
  max 0 (min 100 (chlorophyll * 0.4 + (100 - waterStress) * 0.25
    + (100 - nutrientDeficiency) * 0.2 + (100 - diseaseRisk) * 0.15))

/-- C1: for all inputs chlorophyll, water_stress, nutrient_deficiency,
disease_risk, the overall health score computed by `CropHealthAnalyzer`
equals `chlorophyll*0.4 + (100-water_stress)*0.25 +
(100-nutrient_deficiency)*0.2 + (100-disease_risk)*0.15`, clamped to
`[0,100]`. -/
theorem overall_health_score_matches_spec (c w n d : ℚ) :
    CropHealthAnalyzer.calculateOverallHealthScore c w n d = specOverallHealthScore c w n d := by
  show max 0 (min 100 ((0.4 : ℚ) * c + 0.25 * (100 - w) + 0.2 * (100 - n) + 0.15 * (100 - d)))
    = max 0 (min 100 (c * 0.4 + (100 - w) * 0.25 + (100 - n) * 0.2 + (100 - d) * 0.15))
  have h : (0.4 : ℚ) * c + 0.25 * (100 - w) + 0.2 * (100 - n) + 0.15 * (100 - d)
      = c * 0.4 + (100 - w) * 0.25 + (100 - n) * 0.2 + (100 - d) * 0.15 := by ring
  rw [h]

/-! ### C6: soil result fields bounded -/

/-- C6: for every input (and every randomness draw), the record returned by
`SoilAnalyzer.analyze` satisfies `ph_level ∈ [4.0, 8.5]`,
`organic_matter ∈ [1.0, 8.0]`, `moisture_content ∈ [0, 100]`, and each of
`nitrogen_level`, `phosphorus_level`, `potassium_level` in `[0, 100]`;
both the computed branch (whose six estimators clamp their noisy bases)
and the error-default branch satisfy the bounds. -/
theorem soil_result_fields_bounded (npStd : List ℚ → ℚ) (cube : Cube) (d : SoilDraws) :
    (4 ≤ (SoilAnalyzer.analyze npStd cube d).ph_level
      ∧ (SoilAnalyzer.analyze npStd cube d).ph_level ≤ 8.5)
    ∧ (1 ≤ (SoilAnalyzer.analyze npStd cube d).organic_matter
      ∧ (SoilAnalyzer.analyze npStd cube d).organic_matter ≤ 8)
    ∧ (0 ≤ (SoilAnalyzer.analyze npStd cube d).moisture_content
      ∧ (SoilAnalyzer.analyze npStd cube d).moisture_content ≤ 100)
    ∧ (0 ≤ (SoilAnalyzer.analyze npStd cube d).nitrogen_level
      ∧ (SoilAnalyzer.analyze npStd cube d).nitrogen_level ≤ 100)
    ∧ (0 ≤ (SoilAnalyzer.analyze npStd cube d).phosphorus_level
      ∧ (SoilAnalyzer.analyze npStd cube d).phosphorus_level ≤ 100)
    ∧ (0 ≤ (SoilAnalyzer.analyze npStd cube d).potassium_level
      ∧ (SoilAnalyzer.analyze npStd cube d).potassium_level ≤ 100) := by
  rcases hft : SoilAnalyzer.extractSoilFeatures npStd cube with e | ft
  · rw [soil_analyze_err npStd cube d e hft]
    unfold SoilAnalyzer.defaultSoilResult
    norm_num
  · rw [soil_analyze_ok npStd cube d ft hft]
    unfold SoilAnalyzer.estimatePhLevel SoilAnalyzer.estimateOrganicMatter
      SoilAnalyzer.estimateMoistureContent SoilAnalyzer.estimateNitrogenLevel
      SoilAnalyzer.estimatePhosphorusLevel SoilAnalyzer.estimatePotassiumLevel
    refine ⟨⟨le_max_left _ _, max_le (by norm_num) (min_le_left _ _)⟩,
      ⟨le_max_left _ _, max_le (by norm_num) (min_le_left _ _)⟩,
      ⟨le_max_left _ _, max_le (by norm_num) (min_le_left _ _)⟩,
      ⟨le_max_left _ _, max_le (by norm_num) (min_le_left _ _)⟩,
      ⟨le_max_left _ _, max_le (by norm_num) (min_le_left _ _)⟩,
      ⟨le_max_left _ _, max_le (by norm_num) (min_le_left _ _)⟩⟩

/-! ### C7: behaviour on a length-0 feature vector -/

/-- C7 counterexample: the claim says every scoring model, soil included,
returns its documented default record on a length-0 feature vector.  The
soil estimators ignore the feature vector: with a zero noise draw the pH
estimator returns `6.5`, while the documented default record carries
`ph_level = 6.8`. -/
theorem empty_features_soil_not_default :
    SoilAnalyzer.estimatePhLevel [] 0 = 6.5
    ∧ SoilAnalyzer.defaultSoilResult.ph_level = 6.8
    ∧ (6.5 : ℚ) ≠ 6.8 := by
  refine ⟨?_, rfl, by norm_num⟩
  show max 4 (min 8.5 ((6.5 : ℚ) + 0)) = 6.5
  rw [min_eq_right (by norm_num), max_eq_right (by norm_num)]
  norm_num

/-- C7 (amended): given a feature vector of length 0, the four health
scoring functions return their documented per-metric defaults (75, 20, 15,
12) without raising, for every randomness draw; the soil estimators also
never raise, but they ignore the feature vector altogether, each returning
its clamped noise-shifted base value (not the documented default record). -/
theorem empty_features_behaviour :
    (∀ noise : ℚ, CropHealthAnalyzer.analyzeChlorophyllContent [] noise = 75)
    ∧ (∀ u : ℚ, CropHealthAnalyzer.analyzeWaterStress [] u = 20)
    ∧ (∀ u : ℚ, CropHealthAnalyzer.analyzeNutrientDeficiency [] u = 15)
    ∧ (∀ u : ℚ, CropHealthAnalyzer.analyzeDiseaseRisk [] u = 12)
    ∧ (∀ (ft : List ℚ) (z : ℚ), SoilAnalyzer.estimatePhLevel ft z = max 4 (min 8.5 (6.5 + z)))
    ∧ (∀ (ft : List ℚ) (z : ℚ), SoilAnalyzer.estimateOrganicMatter ft z = max 1 (min 8 (3.5 + z)))
    ∧ (∀ (ft : List ℚ) (z : ℚ),
        SoilAnalyzer.estimateMoistureContent ft z = max 0 (min 100 (45 + z)))
    ∧ (∀ (ft : List ℚ) (z : ℚ), SoilAnalyzer.estimateNitrogenLevel ft z = max 0 (min 100 (70 + z)))
    ∧ (∀ (ft : List ℚ) (z : ℚ),
        SoilAnalyzer.estimatePhosphorusLevel ft z = max 0 (min 100 (65 + z)))
    ∧ (∀ (ft : List ℚ) (z : ℚ),
        SoilAnalyzer.estimatePotassiumLevel ft z = max 0 (min 100 (68 + z))) :=
  ⟨fun _ => rfl, fun _ => rfl, fun _ => rfl, fun _ => rfl, fun _ _ => rfl, fun _ _ => rfl,
    fun _ _ => rfl, fun _ _ => rfl, fun _ _ => rfl, fun _ _ => rfl⟩

/-! ### C2: the three models fail closed -/

/-- C2: none of the three models propagates an internal exception (each has
return type `HealthResult` / `SoilResult` / `List PestDetection`, the
`try/except` boundary being the `Except` eliminator); whenever the body of
the `try` block raises, `CropHealthAnalyzer.analyze` returns the documented
default health record, `SoilAnalyzer.analyze` the documented default soil
record, and `PestDetector.detect` the empty list. -/
theorem models_fail_closed :
    (∀ (npStd : List ℚ → ℚ) (cube : Cube) (indices : SpectralIndices) (d : HealthDraws)
      (e : String), CropHealthAnalyzer.analyzeCore npStd cube indices d = .error e →
      CropHealthAnalyzer.analyze npStd cube indices d = CropHealthAnalyzer.defaultHealthResult)
    ∧ (∀ (npStd : List ℚ → ℚ) (cube : Cube) (d : SoilDraws) (e : String),
      SoilAnalyzer.analyzeCore npStd cube d = .error e →
      SoilAnalyzer.analyze npStd cube d = SoilAnalyzer.defaultSoilResult)
    ∧ (∀ (cube : Cube) (pd : PestDraws) (e : String),
      PestDetector.detectCore cube pd = .error e →
      PestDetector.detect cube pd = []) := by
  refine ⟨fun npStd cube indices d e h => ?_, fun npStd cube d e h => ?_,
    fun cube pd e h => ?_⟩
  · unfold CropHealthAnalyzer.analyze
    rw [h]
  · unfold SoilAnalyzer.analyze
    rw [h]
  · unfold PestDetector.detect
    rw [h]

/-- Witness for C2: a degenerate index map (an empty index array), a
zero-band cube, and a one-dimensional cube make the respective `try` bodies
raise, and each model returns its documented default. -/
theorem models_fail_closed_witness :
    CropHealthAnalyzer.analyze (fun _ => 0) ⟨[2, 2], fun _ _ _ => 0⟩ [("ndvi", [])] ⟨0, 0, 0, 0⟩
      = CropHealthAnalyzer.defaultHealthResult
    ∧ SoilAnalyzer.analyze (fun _ => 0) ⟨[1, 1, 0], fun _ _ _ => 0⟩ ⟨0, 0, 0, 0, 0, 0⟩
      = SoilAnalyzer.defaultSoilResult
    ∧ PestDetector.detect ⟨[5], fun _ _ _ => 0⟩ ⟨0, fun _ => ⟨"aphids", .low, 0, 0, 0, 0⟩⟩
      = [] :=
  ⟨models_fail_closed.1 (fun _ => 0) ⟨[2, 2], fun _ _ _ => 0⟩ [("ndvi", [])] ⟨0, 0, 0, 0⟩
      "zero-size array to reduction operation" rfl,
    models_fail_closed.2.1 (fun _ => 0) ⟨[1, 1, 0], fun _ _ _ => 0⟩ ⟨0, 0, 0, 0, 0, 0⟩
      "zero-size array to reduction operation maximum" rfl,
    models_fail_closed.2.2 ⟨[5], fun _ _ _ => 0⟩ ⟨0, fun _ => ⟨"aphids", .low, 0, 0, 0, 0⟩⟩
      "not enough values to unpack" rfl⟩

/-! ### C3: the models are not pure functions of their features -/

/-- C3 counterexample: two calls of `CropHealthAnalyzer.analyze` on the
identical cube and identical spectral indices return different chlorophyll
scores when the injected `np.random.normal(0, 5)` draw differs (here 0
versus 1: scores 80 versus 81), so the model is not a pure function of its
features alone. -/
theorem health_analyze_not_pure :
    (CropHealthAnalyzer.analyze (fun _ => 0) ⟨[2, 2], fun _ _ _ => 0⟩ [("ndvi", [1/2])]
        ⟨0, 0, 0, 0⟩).chlorophyll_content
    ≠ (CropHealthAnalyzer.analyze (fun _ => 0) ⟨[2, 2], fun _ _ _ => 0⟩ [("ndvi", [1/2])]
        ⟨1, 0, 0, 0⟩).chlorophyll_content := by
  have hft : CropHealthAnalyzer.extractHealthFeatures (fun _ => 0) ⟨[2, 2], fun _ _ _ => 0⟩
      [("ndvi", [1/2])] = .ok [npMean [1/2], 0, npPercentile [1/2] 25, npPercentile [1/2] 75,
        npMinD [1/2], npMaxD [1/2]] := rfl
  rw [health_analyze_ok _ _ _ _ _ hft, health_analyze_ok _ _ _ _ _ hft]
  norm_num [CropHealthAnalyzer.analyzeChlorophyllContent, npMean, List.getD, min_def, max_def]

/-- C3 (amended): each scoring model is a pure function of its extracted
features and the explicit randomness draws: two calls of
`CropHealthAnalyzer.analyze` (resp. `SoilAnalyzer.analyze`) on inputs that
yield identical extracted features, with identical draws, return identical
records — the result depends on the cube and index map only through the
feature vector.  (With differing draws the results can differ, as the
counterexample shows.) -/
theorem scores_determined_by_features_and_draws :
    (∀ (npStd : List ℚ → ℚ) (c₁ c₂ : Cube) (i₁ i₂ : SpectralIndices) (d : HealthDraws),
      CropHealthAnalyzer.extractHealthFeatures npStd c₁ i₁
          = CropHealthAnalyzer.extractHealthFeatures npStd c₂ i₂ →
      CropHealthAnalyzer.analyze npStd c₁ i₁ d = CropHealthAnalyzer.analyze npStd c₂ i₂ d)
    ∧ (∀ (npStd : List ℚ → ℚ) (c₁ c₂ : Cube) (d : SoilDraws),
      SoilAnalyzer.extractSoilFeatures npStd c₁ = SoilAnalyzer.extractSoilFeatures npStd c₂ →
      SoilAnalyzer.analyze npStd c₁ d = SoilAnalyzer.analyze npStd c₂ d) := by
  constructor
  · intro npStd c₁ c₂ i₁ i₂ d h
    unfold CropHealthAnalyzer.analyze CropHealthAnalyzer.analyzeCore
    rw [h]
  · intro npStd c₁ c₂ d h
    unfold SoilAnalyzer.analyze SoilAnalyzer.analyzeCore
    rw [h]

/-- Witness for the amended C3: two cubes differing in their data (and two
index maps differing in index name) produce the same feature vector, and
the two health analyses agree; likewise two differently shaped non-3-D
cubes for the soil model. -/
theorem scores_determined_witness :
    CropHealthAnalyzer.analyze (fun _ => 0) ⟨[2, 2], fun _ _ _ => 0⟩ [("ndvi", [1/2])]
        ⟨0, 0, 0, 0⟩
      = CropHealthAnalyzer.analyze (fun _ => 0) ⟨[2, 2], fun _ _ _ => 1⟩ [("evi", [1/2])]
        ⟨0, 0, 0, 0⟩
    ∧ SoilAnalyzer.analyze (fun _ => 0) ⟨[2, 2], fun _ _ _ => 0⟩ ⟨0, 0, 0, 0, 0, 0⟩
      = SoilAnalyzer.analyze (fun _ => 0) ⟨[9], fun _ _ _ => 1⟩ ⟨0, 0, 0, 0, 0, 0⟩ :=
  ⟨scores_determined_by_features_and_draws.1 (fun _ => 0) ⟨[2, 2], fun _ _ _ => 0⟩
      ⟨[2, 2], fun _ _ _ => 1⟩ [("ndvi", [1/2])] [("evi", [1/2])] ⟨0, 0, 0, 0⟩ rfl,
    scores_determined_by_features_and_draws.2 (fun _ => 0) ⟨[2, 2], fun _ _ _ => 0⟩
      ⟨[9], fun _ _ _ => 1⟩ ⟨0, 0, 0, 0, 0, 0⟩ rfl⟩

/-! ### C8: recommendation lists are never empty -/

/-- The health recommendation generator never returns an empty list (its
three-way overall-score branch always appends one message, and the final
catch-all would cover the empty case anyway). -/
theorem generateHealthRecommendations_ne_nil (ch ws nd dr os : ℚ) :
    CropHealthAnalyzer.generateHealthRecommendations ch ws nd dr os ≠ [] :=
  catchall_ne_nil _ _

/-- The soil recommendation generator never returns an empty list. -/
theorem generateSoilRecommendations_ne_nil (ph om m n p k : ℚ) :
    SoilAnalyzer.generateSoilRecommendations ph om m n p k ≠ [] :=
  catchall_ne_nil _ _

/-- C8: for every input and every randomness draw, the recommendation list
returned by `CropHealthAnalyzer.analyze` and by `SoilAnalyzer.analyze` is
non-empty (on both the computed and the error-default branch); moreover
when no threshold-triggered rule fires the catch-all message is the list:
for soil, in-range inputs give exactly `"Soil conditions are within optimal
ranges"`, and for health — whose mutually exclusive three-way overall-score
branch always fires — the no-other-rule case gives exactly `"Continue
current management practices"`. -/
theorem recommendations_nonempty :
    (∀ (npStd : List ℚ → ℚ) (cube : Cube) (indices : SpectralIndices) (d : HealthDraws),
      (CropHealthAnalyzer.analyze npStd cube indices d).recommendations ≠ [])
    ∧ (∀ (npStd : List ℚ → ℚ) (cube : Cube) (d : SoilDraws),
      (SoilAnalyzer.analyze npStd cube d).recommendations ≠ [])
    ∧ (∀ ph om m n p k : ℚ, 6 ≤ ph → ph ≤ 7.5 → 3 ≤ om → 30 ≤ m → m ≤ 80 → 50 ≤ n → 40 ≤ p →
        45 ≤ k → SoilAnalyzer.generateSoilRecommendations ph om m n p k
          = ["Soil conditions are within optimal ranges"])
    ∧ (∀ ch ws nd dr os : ℚ, 60 ≤ ch → ws ≤ 40 → nd ≤ 30 → dr ≤ 25 → 70 ≤ os →
        CropHealthAnalyzer.generateHealthRecommendations ch ws nd dr os
          = ["Continue current management practices"]) := by
  refine ⟨fun npStd cube indices d => ?_, fun npStd cube d => ?_, ?_, ?_⟩
  · rcases hft : CropHealthAnalyzer.extractHealthFeatures npStd cube indices with e | ft
    · rw [health_analyze_err npStd cube indices d e hft]
      unfold CropHealthAnalyzer.defaultHealthResult
      simp
    · rw [health_analyze_ok npStd cube indices d ft hft]
      exact generateHealthRecommendations_ne_nil _ _ _ _ _
  · rcases hft : SoilAnalyzer.extractSoilFeatures npStd cube with e | ft
    · rw [soil_analyze_err npStd cube d e hft]
      unfold SoilAnalyzer.defaultSoilResult
      simp
    · rw [soil_analyze_ok npStd cube d ft hft]
      exact generateSoilRecommendations_ne_nil _ _ _ _ _ _
  · intro ph om m n p k h1 h2 h3 h4 h5 h6 h7 h8
    have n1 : ¬ ph < 6 := by linarith
    have n2 : ¬ ph > 7.5 := by linarith
    have n3 : ¬ om < 3 := by linarith
    have n4 : ¬ m < 30 := by linarith
    have n5 : ¬ m > 80 := by linarith
    have n6 : ¬ n < 50 := by linarith
    have n7 : ¬ p < 40 := by linarith
    have n8 : ¬ k < 45 := by linarith
    simp [SoilAnalyzer.generateSoilRecommendations, n1, n2, n3, n4, n5, n6, n7, n8]
  · intro ch ws nd dr os h1 h2 h3 h4 h5
    have n1 : ¬ ch < 60 := by linarith
    have n2 : ¬ ws > 40 := by linarith
    have n3 : ¬ nd > 30 := by linarith
    have n4 : ¬ dr > 25 := by linarith
    have n5 : ¬ os < 50 := by linarith
    have n6 : ¬ os < 70 := by linarith
    simp [CropHealthAnalyzer.generateHealthRecommendations, n1, n2, n3, n4, n5, n6]

/-- Witness for C8: concrete nonempty recommendation lists, and the two
catch-all cases realized at in-range inputs. -/
theorem recommendations_nonempty_witness :
    (CropHealthAnalyzer.analyze (fun _ => 0) ⟨[2, 2], fun _ _ _ => 0⟩ [("ndvi", [])]
        ⟨0, 0, 0, 0⟩).recommendations ≠ []
    ∧ (SoilAnalyzer.analyze (fun _ => 0) ⟨[2, 2], fun _ _ _ => 0⟩
        ⟨0, 0, 0, 0, 0, 0⟩).recommendations ≠ []
    ∧ SoilAnalyzer.generateSoilRecommendations 7 4 50 60 50 50
      = ["Soil conditions are within optimal ranges"]
    ∧ CropHealthAnalyzer.generateHealthRecommendations 70 30 20 20 80
      = ["Continue current management practices"] :=
  ⟨recommendations_nonempty.1 (fun _ => 0) ⟨[2, 2], fun _ _ _ => 0⟩ [("ndvi", [])] ⟨0, 0, 0, 0⟩,
    recommendations_nonempty.2.1 (fun _ => 0) ⟨[2, 2], fun _ _ _ => 0⟩ ⟨0, 0, 0, 0, 0, 0⟩,
    recommendations_nonempty.2.2.1 7 4 50 60 50 50 (by norm_num) (by norm_num) (by norm_num)
      (by norm_num) (by norm_num) (by norm_num) (by norm_num) (by norm_num),
    recommendations_nonempty.2.2.2 70 30 20 20 80 (by norm_num) (by norm_num) (by norm_num)
      (by norm_num) (by norm_num)⟩

/-! ### C5: band ranges for short spectra -/

/-- C5 counterexample: for a 3-D cube with 30 bands (fewer than the
canonical 120-band 400-1000nm/5nm grid), the health feature extraction
raises (`np.max` of the empty hardcoded slice `avg_spectrum[50:100]`)
instead of re-deriving the regional band ranges proportionally; the error
is only absorbed later by the `analyze` boundary. -/
theorem short_spectrum_feature_extraction_raises :
    CropHealthAnalyzer.extractHealthFeatures (fun _ => 0) ⟨[1, 1, 30], fun _ _ _ => 1⟩ []
      = .error "zero-size array to reduction operation maximum" := rfl

/-- C5 (amended): the red-edge slope uses clamped — not proportionally
re-derived — band ranges (`min(60, len-10)` to `min(70, len)`, i.e. the
last ten bands when fewer than 70 are present) and never raises on a
nonempty spectrum; the four regional peak/trough features, however, keep
the hardcoded index ranges `[0:50]`, `[50:100]`, `[100:150]`, `[150:]` and
always raise when the mean spectrum has at most 150 bands (one of the
slices is necessarily empty), the error being caught only at the `analyze`
boundary. -/
theorem red_edge_clamped_and_regional_raises :
    (∀ spectrum : List ℚ, 1 ≤ spectrum.length →
      (CropHealthAnalyzer.redEdgeSlope spectrum).isOk = true)
    ∧ (∀ avg : List ℚ, avg.length ≤ 150 →
      (CropHealthAnalyzer.regionalPeakFeatures avg).isOk = false) := by
  constructor
  · intro s hs
    unfold CropHealthAnalyzer.redEdgeSlope
    rw [if_pos (by omega)]
    have hlen : (pySlice s (min 60 ((s.length : Int) - 10)) (min 70 (s.length : Int))).length
        ≠ 0 := by
      unfold pySlice pyIdx
      simp only [List.length_take, List.length_drop]
      split_ifs <;> omega
    rw [if_neg (by simpa [List.isEmpty_iff, List.length_eq_zero] using hlen)]
    rfl
  · intro avg h
    have h4 : avg.drop 150 = [] := List.drop_eq_nil_of_le (by omega)
    unfold CropHealthAnalyzer.regionalPeakFeatures
    rcases hb : npMax (avg.take 50) with e | b
    · simp [hb, Except.instMonad, Except.bind, Except.isOk, Except.toBool]
    · rcases hg : npMax ((avg.drop 50).take 50) with e | g
      · simp [hb, hg, Except.instMonad, Except.bind, Except.isOk, Except.toBool]
      · rcases hr : npMin ((avg.drop 100).take 50) with e | r
        · simp [hb, hg, hr, Except.instMonad, Except.bind, Except.isOk, Except.toBool]
        · simp [hb, hg, hr, h4, npMax, Except.instMonad, Except.bind, Except.isOk, Except.toBool]

/-- Witness for the amended C5: a two-band spectrum has a defined red-edge
slope, and a three-band mean spectrum makes the regional features raise. -/
theorem red_edge_clamped_witness :
    (CropHealthAnalyzer.redEdgeSlope [1, 2]).isOk = true
    ∧ (CropHealthAnalyzer.regionalPeakFeatures [1, 2, 3]).isOk = false :=
  ⟨red_edge_clamped_and_regional_raises.1 [1, 2] (by norm_num),
    red_edge_clamped_and_regional_raises.2 [1, 2, 3] (by norm_num)⟩

/-! ### C4: pest detection record fields -/

/-- C4 counterexample: on a 10×10 cube, a detection's `location_x` is
`np.random.uniform(0, width)` — a pixel coordinate, not a normalized one;
with standard draw `1/2` it equals `5`, which is not in `[0, 1]`. -/
theorem pest_location_not_normalized :
    (PestDetector.detect ⟨[10, 10, 5], fun _ _ _ => 0⟩
        ⟨1, fun _ => ⟨"aphids", .medium, 0, 1/2, 1/2, 0⟩⟩).map PestDetection.location_x = [5]
    ∧ ¬ ((5 : ℚ) ≤ 1) := by
  constructor
  · rw [detect_eq_sort_generate]
    simp [PestDetector.generateDetections, PestDetector.createPestDetection,
      List.insertionSort, List.orderedInsert, npUniform]
    norm_num
  · norm_num

/-- C4 (amended): every detection returned by `PestDetector.detect` has a
severity among Low, Medium, High; a confidence inside its severity tier's
band (Low `[0.6, 0.8)`, Medium `[0.7, 0.9)`, High `[0.8, 0.95)`) whenever
the underlying standard uniform draws lie in `[0, 1)`; and a location in
pixel coordinates — `location_x ∈ [0, width]`, `location_y ∈ [0, height]`
where `(height, width)` are the cube's spatial shape — not a normalized
location in `[0, 1] × [0, 1]`. -/
theorem pest_detection_fields_bounded (cube : Cube) (pd : PestDraws)
    (hdraw : ∀ i, (0 ≤ (pd.dets i).confU ∧ (pd.dets i).confU < 1)
      ∧ (0 ≤ (pd.dets i).locXU ∧ (pd.dets i).locXU < 1)
      ∧ (0 ≤ (pd.dets i).locYU ∧ (pd.dets i).locYU < 1)) :
    ∀ det ∈ PestDetector.detect cube pd,
      (det.severity = Severity.low ∨ det.severity = Severity.medium
        ∨ det.severity = Severity.high)
      ∧ ((PestDetector.confidenceRange det.severity).1 ≤ det.confidence
        ∧ det.confidence < (PestDetector.confidenceRange det.severity).2)
      ∧ (0 ≤ det.location_x ∧ det.location_x ≤ ((cube.shape.getD 1 0 : ℕ) : ℚ))
      ∧ (0 ≤ det.location_y ∧ det.location_y ≤ ((cube.shape.getD 0 0 : ℕ) : ℚ)) := by
  intro det hdet
  rw [detect_eq_sort_generate] at hdet
  rw [List.mem_insertionSort] at hdet
  unfold PestDetector.generateDetections at hdet
  split at hdet
  · exact absurd hdet (List.not_mem_nil det)
  · rw [List.mem_map] at hdet
    obtain ⟨i, _, rfl⟩ := hdet
    obtain ⟨⟨hc0, hc1⟩, ⟨hx0, hx1⟩, ⟨hy0, hy1⟩⟩ := hdraw i
    unfold PestDetector.createPestDetection npUniform
    refine ⟨?_, ?_, ?_, ?_⟩
    · cases (pd.dets i).severity <;> simp
    · cases hsev : (pd.dets i).severity <;>
        simp only [PestDetector.confidenceRange, hsev] <;>
        constructor <;> nlinarith [hc0, hc1]
    · have h0 : (0 : ℚ) ≤ ((cube.shape.getD 1 0 : ℕ) : ℚ) := Nat.cast_nonneg _
      constructor
      · simpa using mul_nonneg hx0 h0
      · simpa using mul_le_of_le_one_left h0 hx1.le
    · have h0 : (0 : ℚ) ≤ ((cube.shape.getD 0 0 : ℕ) : ℚ) := Nat.cast_nonneg _
      constructor
      · simpa using mul_nonneg hy0 h0
      · simpa using mul_le_of_le_one_left h0 hy1.le

/-- Witness for the amended C4: a single medium-severity detection on a
4×7 cube, generated with zero draws, satisfies every bound (its confidence
is 0.7 and its location is the pixel origin). -/
theorem pest_detection_fields_bounded_witness :
    ((PestDetector.createPestDetection ⟨"aphids", Severity.medium, 0, 0, 0, 0⟩ 4 7).severity
        = Severity.low
      ∨ (PestDetector.createPestDetection ⟨"aphids", Severity.medium, 0, 0, 0, 0⟩ 4 7).severity
        = Severity.medium
      ∨ (PestDetector.createPestDetection ⟨"aphids", Severity.medium, 0, 0, 0, 0⟩ 4 7).severity
        = Severity.high)
    ∧ ((PestDetector.confidenceRange
          (PestDetector.createPestDetection ⟨"aphids", Severity.medium, 0, 0, 0, 0⟩ 4 7).severity).1
        ≤ (PestDetector.createPestDetection ⟨"aphids", Severity.medium, 0, 0, 0, 0⟩ 4 7).confidence
      ∧ (PestDetector.createPestDetection ⟨"aphids", Severity.medium, 0, 0, 0, 0⟩ 4 7).confidence
        < (PestDetector.confidenceRange
          (PestDetector.createPestDetection ⟨"aphids", Severity.medium, 0, 0, 0, 0⟩ 4 7).severity).2)
    ∧ (0 ≤ (PestDetector.createPestDetection ⟨"aphids", Severity.medium, 0, 0, 0, 0⟩ 4 7).location_x
      ∧ (PestDetector.createPestDetection ⟨"aphids", Severity.medium, 0, 0, 0, 0⟩ 4 7).location_x
        ≤ 7)
    ∧ (0 ≤ (PestDetector.createPestDetection ⟨"aphids", Severity.medium, 0, 0, 0, 0⟩ 4 7).location_y
      ∧ (PestDetector.createPestDetection ⟨"aphids", Severity.medium, 0, 0, 0, 0⟩ 4 7).location_y
        ≤ 4) :=
  pest_detection_fields_bounded ⟨[4, 7, 3], fun _ _ _ => 0⟩
    ⟨1, fun _ => ⟨"aphids", Severity.medium, 0, 0, 0, 0⟩⟩
    (fun _ => ⟨⟨le_refl 0, by norm_num⟩, ⟨le_refl 0, by norm_num⟩, ⟨le_refl 0, by norm_num⟩⟩)
    (PestDetector.createPestDetection ⟨"aphids", Severity.medium, 0, 0, 0, 0⟩ 4 7)
    (by rw [detect_eq_sort_generate]
        simp [PestDetector.generateDetections, List.insertionSort, List.orderedInsert])

/-! ### C9: detection list sorted by severity, stable within ties -/

/-- C9: the list returned by `PestDetector.detect` is sorted in descending
order of severity tier (High > Medium > Low), and the detections of each
fixed severity appear exactly in their generation (insertion) order: for
every severity, filtering the returned list gives the same sublist as
filtering the generated one. -/
theorem detect_sorted_and_stable (cube : Cube) (pd : PestDraws) :
    List.Pairwise PestDetector.sevGE (PestDetector.detect cube pd)
    ∧ ∀ s : Severity,
      (PestDetector.detect cube pd).filter (fun x => decide (x.severity = s))
        = (PestDetector.generateDetections cube pd).filter
          (fun x => decide (x.severity = s)) := by
  rw [detect_eq_sort_generate]
  constructor
  · exact List.sorted_insertionSort PestDetector.sevGE _
  · intro s
    set p : PestDetection → Bool := fun x => decide (x.severity = s) with hp
    set l := PestDetector.generateDetections cube pd with hl
    have hpair : (l.filter p).Pairwise PestDetector.sevGE := by
      apply List.pairwise_of_forall_mem_list
      intro a ha b hb
      have ha2 : a.severity = s := of_decide_eq_true (List.mem_filter.mp ha).2
      have hb2 : b.severity = s := of_decide_eq_true (List.mem_filter.mp hb).2
      unfold PestDetector.sevGE
      rw [ha2, hb2]
    have hsub : List.Sublist (l.filter p) (l.insertionSort PestDetector.sevGE) :=
      List.sublist_insertionSort hpair (List.filter_sublist l)
    have hself : (l.filter p).filter p = l.filter p :=
      List.filter_eq_self.mpr fun a ha => (List.mem_filter.mp ha).2
    have hsub2 : List.Sublist (l.filter p) ((l.insertionSort PestDetector.sevGE).filter p) := by
      have := hsub.filter p
      rwa [hself] at this
    have hperm : List.Perm ((l.insertionSort PestDetector.sevGE).filter p) (l.filter p) :=
      (List.perm_insertionSort PestDetector.sevGE l).filter p
    exact (hsub2.eq_of_length hperm.length_eq.symm).symm

/-! ### C10: at most three detections -/

/-- C10: for every cube with at least a two-dimensional shape, and every
randint draw in its support {0, 1, 2, 3}, `PestDetector.detect` returns at
most 3 detections (the sort preserves the length of the generation loop's
output, which equals the draw). -/
theorem detect_count_at_most_three (cube : Cube) (pd : PestDraws)
    (hshape : 2 ≤ cube.shape.length) (hn : pd.nDet < 4) :
    (PestDetector.detect cube pd).length ≤ 3 := by
  rw [detect_eq_sort_generate, List.length_insertionSort]
  unfold PestDetector.generateDetections
  rw [if_neg (by omega)]
  simp only [List.length_map, List.length_range]
  omega

/-- Witness for C10: a 2×2 cube with the maximal randint draw 3 yields at
most three detections. -/
theorem detect_count_witness :
    (PestDetector.detect ⟨[2, 2], fun _ _ _ => 0⟩
      ⟨3, fun _ => ⟨"aphids", Severity.low, 0, 0, 0, 0⟩⟩).length ≤ 3 :=
  detect_count_at_most_three ⟨[2, 2], fun _ _ _ => 0⟩
    ⟨3, fun _ => ⟨"aphids", Severity.low, 0, 0, 0, 0⟩⟩ (by norm_num) (by norm_num)
